import Mathlib

/-!
Shallow embedding of `src/lib/ardupilot_interface.hpp` (repository Pritesh-0/michi).

The file models the MAVLink host-side bridge: the error taxonomy (source lines
18-26), the `MavlinkInterface` data members (lines 74-91), the receive loop
`wait_for_next_message` (lines 105-122), the initialization sequence `init`
(lines 133-234), the position commander `set_target_position_local`
(lines 235-267), the heartbeat sender `heartbeat` (lines 271-290) and the free
function `heartbeat_loop` (lines 293-298).

Modelling conventions:
* The asio transport is modelled by oracles: a `writeOk : Nat → Bool` giving
  the outcome of the k-th `send_message` write, and a
  `reads : Nat → Except Nat (List Nat)` stream giving the outcome of the i-th
  `async_read_some` (a raw asio error code, or the bytes read).
* The MAVLink frame codec (external library) is abstracted by a per-channel
  state `ChanState` (the `mavlink_status_t` counter `msg_received` together
  with the channel's message buffer returned by `mavlink_get_channel_buffer`)
  and a `feed` step function standing for `mavlink_parse_char`.
* Coroutines that may suspend forever are run with explicit fuel; a result of
  `none` means the coroutine has not resumed within that many reads.
* The only float values occurring in the modelled code are exact small
  integers (`INVALID = 0.0f`, parameter value `0`), so float payloads are
  modelled as `Int`.
* MAVLink enum values used below are the fixed constants of the MAVLink
  common dialect (an external dependency of the repository).
-/

namespace Ardupilot

/-- Error taxonomy `MavlinkErrc` (source lines 18-26). -/
inductive MavlinkErrc where
  | NoHeartbeat
  | NoCommandAck
  | FailedWrite
  | FailedRead
  | TransmitTimeout
  | ReceiveTimeout
deriving DecidableEq

/-- A `std::error_code` value as used by `tResult`: either a raw asio
transport error (identified by its numeric value) or a `MavlinkErrc`
(source lines 54-66). -/
inductive ErrorCode where
  | transport (n : Nat)
  | mav (e : MavlinkErrc)
deriving DecidableEq

/-- A `tResult<void>` value: success, or failure with an `ErrorCode`
(source line 66). -/
inductive TResult where
  | ok
  | fail (e : ErrorCode)
deriving DecidableEq

/-- MAVLink common dialect: message id of COMMAND_ACK. -/
def MAVLINK_MSG_ID_COMMAND_ACK : Nat := 77

/-- MAVLink common dialect: MAV_PARAM_TYPE_INT16. -/
def MAV_PARAM_TYPE_INT16 : Nat := 4

/-- MAVLink common dialect: MAV_FRAME_LOCAL_NED. -/
def MAV_FRAME_LOCAL_NED : Nat := 1

/-- MAVLink common dialect: MAV_FRAME_BODY_OFFSET_NED. -/
def MAV_FRAME_BODY_OFFSET_NED : Nat := 9

/-- MAVLink common dialect: MAV_TYPE_ONBOARD_CONTROLLER. -/
def MAV_TYPE_ONBOARD_CONTROLLER : Nat := 18

/-- MAVLink common dialect: MAV_AUTOPILOT_INVALID. -/
def MAV_AUTOPILOT_INVALID : Nat := 8

/-- MAVLink common dialect: MAV_MODE_FLAG_GUIDED_ENABLED. -/
def MAV_MODE_FLAG_GUIDED_ENABLED : Nat := 8

/-- MAVLink common dialect: MAV_STATE_STANDBY. -/
def MAV_STATE_STANDBY : Nat := 3

/-- MAVLink common dialect, POSITION_TARGET_TYPEMASK: bit meaning
"ignore the x position field" (a set bit means the field is ignored). -/
def POSITION_TARGET_TYPEMASK_X_IGNORE : Nat := 1

/-- MAVLink POSITION_TARGET_TYPEMASK: ignore y position. -/
def POSITION_TARGET_TYPEMASK_Y_IGNORE : Nat := 2

/-- MAVLink POSITION_TARGET_TYPEMASK: ignore z position. -/
def POSITION_TARGET_TYPEMASK_Z_IGNORE : Nat := 4

/-- MAVLink POSITION_TARGET_TYPEMASK: ignore vx. -/
def POSITION_TARGET_TYPEMASK_VX_IGNORE : Nat := 8

/-- MAVLink POSITION_TARGET_TYPEMASK: ignore vy. -/
def POSITION_TARGET_TYPEMASK_VY_IGNORE : Nat := 16

/-- MAVLink POSITION_TARGET_TYPEMASK: ignore vz. -/
def POSITION_TARGET_TYPEMASK_VZ_IGNORE : Nat := 32

/-- MAVLink POSITION_TARGET_TYPEMASK: ignore ax. -/
def POSITION_TARGET_TYPEMASK_AX_IGNORE : Nat := 64

/-- MAVLink POSITION_TARGET_TYPEMASK: ignore ay. -/
def POSITION_TARGET_TYPEMASK_AY_IGNORE : Nat := 128

/-- MAVLink POSITION_TARGET_TYPEMASK: ignore az. -/
def POSITION_TARGET_TYPEMASK_AZ_IGNORE : Nat := 256

/-- MAVLink POSITION_TARGET_TYPEMASK: ignore yaw. -/
def POSITION_TARGET_TYPEMASK_YAW_IGNORE : Nat := 1024

/-- MAVLink POSITION_TARGET_TYPEMASK: ignore yaw rate. -/
def POSITION_TARGET_TYPEMASK_YAW_RATE_IGNORE : Nat := 2048

/-- A field of a position-target command is marked valid (used) by a mask
when its ignore bit is clear. -/
def maskFieldUsed (mask bit : Nat) : Bool := mask &&& bit == 0

/-- Source line 72: `const float INVALID = 0.0f;` — the sentinel written into
every unused field of an outbound command. -/
def INVALID : Int := 0

/-- The data members of `class MavlinkInterface` (source lines 74-91), apart
from the serial port handle `m_uart` and the clock origin `m_start`, which
are I/O resources abstracted by the transport oracles. -/
structure MavlinkInterface where
  m_heartbeat_channel : Nat
  m_targets_channel : Nat
  m_positions_channel : Nat
  m_system_id : Nat
  m_component_id : Nat
  m_my_id : Nat
  USE_POSITION : Nat
  USE_VELOCITY : Nat
  USE_YAW : Nat
deriving DecidableEq

/-- The member initialisers of `MavlinkInterface` (source lines 79-91): the
constructor (lines 128-132) sets only `m_uart`/`m_start`, so every instance
carries these values. -/
def mkInterface : MavlinkInterface :=
  { m_heartbeat_channel := 0
    m_targets_channel := 1
    m_positions_channel := 2
    m_system_id := 1
    m_component_id := 1
    m_my_id := 5
    USE_POSITION := 0x0DFC
    USE_VELOCITY := 0x0DE7
    USE_YAW := 0x09FF }

/-- A decoded MAVLink message, as far as the modelled code inspects it:
`init` only reads `msgid` of the channel buffer (source line 227). -/
structure MavMessage where
  msgid : Nat
deriving DecidableEq

/-- Per-channel codec state: the `mavlink_status_t` counter `msg_received`
read at source lines 107-111, together with the channel message buffer
returned by `mavlink_get_channel_buffer` (source line 225). -/
structure ChanState where
  msg_received : Nat
  lastMsg : MavMessage
deriving DecidableEq

/-- A `PARAM_SET` command as packed by `mavlink_msg_param_set_pack_chan`
(source lines 140-146 plus each call site): sender ids and channel from the
curried prefix, then target ids, parameter id, value and type. -/
structure ParamSetCmd where
  senderSys : Nat
  senderComp : Nat
  chan : Nat
  targetSys : Nat
  targetComp : Nat
  param_id : String
  param_value : Int
  param_type : Nat
deriving DecidableEq

/-- A `COMMAND_INT` command as packed by `mavlink_msg_command_int_pack_chan`
(source lines 205-221). -/
structure CommandIntCmd where
  senderSys : Nat
  senderComp : Nat
  chan : Nat
  targetSys : Nat
  targetComp : Nat
  frame : Nat
  command : Nat
  current : Nat
  autocontinue : Nat
  param1 : Int
  param2 : Int
  param3 : Int
  param4 : Int
  x : Int
  y : Int
  z : Int
deriving DecidableEq

/-- An outbound command passed to `send_message` during `init`. -/
inductive MavCommand where
  | paramSet (c : ParamSetCmd)
  | commandInt (c : CommandIntCmd)
deriving DecidableEq

/-- The `SET_POSITION_TARGET_LOCAL_NED` message packed by
`set_target_position_local` (source lines 238-259). -/
structure SetPositionTargetLocalNed where
  senderSys : Nat
  senderComp : Nat
  chan : Nat
  time_boot_ms : Nat
  target_system : Nat
  target_component : Nat
  coordinate_frame : Nat
  type_mask : Nat
  x : Int
  y : Int
  z : Int
  vx : Int
  vy : Int
  vz : Int
  afx : Int
  afy : Int
  afz : Int
  yaw : Int
  yaw_rate : Int
deriving DecidableEq

/-- The `HEARTBEAT` message packed by `heartbeat` (source lines 273-282).
The source passes `INVALID` (0.0f) for the `uint32 custom_mode` argument,
which converts to 0. -/
structure HeartbeatMsg where
  senderSys : Nat
  senderComp : Nat
  chan : Nat
  mavtype : Nat
  autopilot : Nat
  base_mode : Nat
  custom_mode : Nat
  system_status : Nat
deriving DecidableEq

/-- The loop body of `wait_for_next_message` (source lines 111-121): while the
channel's `msg_received` counter still equals its recorded value `before`,
perform one `async_read_some`; a read error is returned raw
(`make_unexpected(error)`, line 115); otherwise all bytes read are fed to
`mavlink_parse_char` (the abstract `feed`) and the loop repeats.  `fuel`
bounds the number of reads performed; `none` means the coroutine is still
suspended after that many reads (the source loop has no deadline).  On exit
with an advanced counter the coroutine completes with success. -/
def waitLoop (feed : ChanState → Nat → ChanState)
    (reads : Nat → Except Nat (List Nat)) (before : Nat) :
    Nat → ChanState → Nat → Option (TResult × ChanState)
  | 0, st, _ =>
    if st.msg_received ≠ before then some (TResult.ok, st) else none
  | Nat.succ f, st, i =>
    if st.msg_received ≠ before then some (TResult.ok, st)
    else
      match reads i with
      | Except.error n => some (TResult.fail (ErrorCode.transport n), st)
      | Except.ok bytes => waitLoop feed reads before f (List.foldl feed st bytes) (i + 1)

/-- `wait_for_next_message` (source lines 105-122): record the channel's
current `msg_received` counter, then run the read loop. -/
def wait_for_next_message (feed : ChanState → Nat → ChanState)
    (reads : Nat → Except Nat (List Nat)) (fuel : Nat) (st : ChanState) :
    Option (TResult × ChanState) :=
  waitLoop feed reads st.msg_received fuel st 0

/-- The ten telemetry stream rate parameters set by `init`, in source order
(source lines 151-196). -/
def streamParams : List String :=
  ["SR0_RAW_SENS", "SR0_EXT_STAT", "SR0_RC_CHAN", "SR0_RAW_CTRL",
   "SR0_POSITION", "SR0_EXTRA1", "SR0_EXTRA2", "SR0_EXTRA3",
   "SR0_PARAMS", "SR0_ADSB"]

/-- One parameter-set command of `init`: `set_param_curried(pid, 0,
MAV_PARAM_TYPE_INT16)` with the curried prefix of source lines 140-146. -/
def mkParamSet (mi : MavlinkInterface) (pid : String) : MavCommand :=
  MavCommand.paramSet
    { senderSys := mi.m_system_id
      senderComp := mi.m_my_id
      chan := mi.m_heartbeat_channel
      targetSys := mi.m_system_id
      targetComp := mi.m_component_id
      param_id := pid
      param_value := 0
      param_type := MAV_PARAM_TYPE_INT16 }

/-- The preflight reboot command of `init` (source lines 204-221):
MAV_CMD_PREFLIGHT_REBOOT_SHUTDOWN = 246, param1 = 1 (reboot autopilot),
all other params and coordinates 0. -/
def rebootCommand (mi : MavlinkInterface) : MavCommand :=
  MavCommand.commandInt
    { senderSys := mi.m_system_id
      senderComp := mi.m_my_id
      chan := mi.m_heartbeat_channel
      targetSys := mi.m_system_id
      targetComp := mi.m_component_id
      frame := MAV_FRAME_LOCAL_NED
      command := 246
      current := 0
      autocontinue := 0
      param1 := 1
      param2 := 0
      param3 := 0
      param4 := 0
      x := 0
      y := 0
      z := 0 }

/-- The eleven commands `init` passes to `send_message`, in source order:
the ten parameter sets then the reboot command. -/
def initCommands (mi : MavlinkInterface) : List MavCommand :=
  streamParams.map (mkParamSet mi) ++ [rebootCommand mi]

/-- The send sequence of `init` (the unrolled blocks at source lines
151-223): each command in turn is sent; on the first failing write the
sequence stops (`if (error) break;`).  Returns the commands actually passed
to `send_message`, in order, and whether every write succeeded.  `i` is the
index of the next write attempt in the transport oracle. -/
def sendAll {α : Type} (writeOk : Nat → Bool) : List α → Nat → List α × Bool
  | [], _ => ([], true)
  | c :: cs, i =>
    if writeOk i then
      let r := sendAll writeOk cs (i + 1)
      (c :: r.1, r.2)
    else ([c], false)

/-- The environment a run of `init` executes against: the write oracle for
`send_message`, and the read oracle, codec step, fuel bound and initial
heartbeat-channel codec state for the ack-wait. -/
structure InitEnv where
  writeOk : Nat → Bool
  feed : ChanState → Nat → ChanState
  reads : Nat → Except Nat (List Nat)
  fuel : Nat
  chan0 : ChanState

/-- The commands a run of `init` actually sends. -/
def initTrace (mi : MavlinkInterface) (env : InitEnv) : List MavCommand :=
  (sendAll env.writeOk (initCommands mi) 0).1

/-- `init` (source lines 133-234).  If any write fails, the remaining sends
are skipped and the run ends with `FailedWrite` (lines 229-233).  Otherwise
`wait_for_next_message(m_heartbeat_channel)` is awaited with its result
discarded (line 224), the channel buffer is fetched (line 225) and its
`msgid` compared with `MAVLINK_MSG_ID_COMMAND_ACK` (line 227): a different
kind yields `NoCommandAck`, the ack kind yields success.  `none` means the
run is still suspended inside the ack-wait. -/
def init (mi : MavlinkInterface) (env : InitEnv) :
    Option (TResult × List MavCommand) :=
  if (sendAll env.writeOk (initCommands mi) 0).2 then
    match wait_for_next_message env.feed env.reads env.fuel env.chan0 with
    | none => none
    | some p =>
      if p.2.lastMsg.msgid ≠ MAVLINK_MSG_ID_COMMAND_ACK then
        some (TResult.fail (ErrorCode.mav MavlinkErrc.NoCommandAck), initTrace mi env)
      else
        some (TResult.ok, initTrace mi env)
  else
    some (TResult.fail (ErrorCode.mav MavlinkErrc.FailedWrite), initTrace mi env)

/-- `set_target_position_local` (source lines 235-267): pack the
`SET_POSITION_TARGET_LOCAL_NED` message (frame `MAV_FRAME_BODY_OFFSET_NED`,
mask `USE_POSITION`, positions from `xyz`, every velocity, acceleration,
yaw and yaw-rate field set to `INVALID`), send it once; a failed write
yields `FailedWrite`, success yields success.  `uptime` stands for the
`get_uptime()` clock read. -/
def set_target_position_local (mi : MavlinkInterface) (uptime : Nat)
    (x y z : Int) (writeOk : Bool) : TResult × SetPositionTargetLocalNed :=
  ( if writeOk then TResult.ok
    else TResult.fail (ErrorCode.mav MavlinkErrc.FailedWrite),
    { senderSys := mi.m_system_id
      senderComp := mi.m_my_id
      chan := mi.m_targets_channel
      time_boot_ms := uptime
      target_system := mi.m_system_id
      target_component := mi.m_component_id
      coordinate_frame := MAV_FRAME_BODY_OFFSET_NED
      type_mask := mi.USE_POSITION
      x := x
      y := y
      z := z
      vx := INVALID
      vy := INVALID
      vz := INVALID
      afx := INVALID
      afy := INVALID
      afz := INVALID
      yaw := INVALID
      yaw_rate := INVALID } )

/-- The message built by `set_target_position_local` on the constructed
interface. -/
def targetMsg (uptime : Nat) (x y z : Int) (writeOk : Bool) :
    SetPositionTargetLocalNed :=
  (set_target_position_local mkInterface uptime x y z writeOk).2

/-- `heartbeat` (source lines 271-290): pack the fixed `HEARTBEAT` message
and send it once; a failed write yields `FailedWrite`, success yields
success.  The interface value is returned unchanged: the method mutates no
member. -/
def heartbeat (mi : MavlinkInterface) (writeOk : Bool) :
    TResult × HeartbeatMsg × MavlinkInterface :=
  ( if writeOk then TResult.ok
    else TResult.fail (ErrorCode.mav MavlinkErrc.FailedWrite),
    { senderSys := mi.m_system_id
      senderComp := mi.m_my_id
      chan := mi.m_heartbeat_channel
      mavtype := MAV_TYPE_ONBOARD_CONTROLLER
      autopilot := MAV_AUTOPILOT_INVALID
      base_mode := MAV_MODE_FLAG_GUIDED_ENABLED
      custom_mode := 0
      system_status := MAV_STATE_STANDBY },
    mi )

/-- `heartbeat_loop` (source lines 293-298): repeatedly await
`mi.heartbeat()`; on the first failure break.  `writeOk i` is the outcome of
the i-th heartbeat write, `fuel` bounds the number of iterations run.  The
result is `some n` when the loop terminated after `n` heartbeat sends, and
`none` when it is still running after `fuel` iterations. -/
def heartbeat_loop (mi : MavlinkInterface) (writeOk : Nat → Bool) :
    Nat → Nat → Option Nat
  | 0, _ => none
  | Nat.succ f, i =>
    match (heartbeat mi (writeOk i)).1 with
    | TResult.ok => heartbeat_loop mi writeOk f (i + 1)
    | TResult.fail _ => some (i + 1)

/-- The spec's reading of the position mask ("exactly the three position
fields are marked valid"): x, y and z used, every velocity, acceleration,
yaw and yaw-rate field ignored.  Stated from the spec's words for comparison
with the mask the source actually uses. -/
def specPositionOnlyMask (mask : Nat) : Bool :=
  maskFieldUsed mask POSITION_TARGET_TYPEMASK_X_IGNORE
  && maskFieldUsed mask POSITION_TARGET_TYPEMASK_Y_IGNORE
  && maskFieldUsed mask POSITION_TARGET_TYPEMASK_Z_IGNORE
  && !maskFieldUsed mask POSITION_TARGET_TYPEMASK_VX_IGNORE
  && !maskFieldUsed mask POSITION_TARGET_TYPEMASK_VY_IGNORE
  && !maskFieldUsed mask POSITION_TARGET_TYPEMASK_VZ_IGNORE
  && !maskFieldUsed mask POSITION_TARGET_TYPEMASK_AX_IGNORE
  && !maskFieldUsed mask POSITION_TARGET_TYPEMASK_AY_IGNORE
  && !maskFieldUsed mask POSITION_TARGET_TYPEMASK_AZ_IGNORE
  && !maskFieldUsed mask POSITION_TARGET_TYPEMASK_YAW_IGNORE
  && !maskFieldUsed mask POSITION_TARGET_TYPEMASK_YAW_RATE_IGNORE

/-- The spec's reading of the unused fields ("carry a documented
invalid/ignored sentinel value rather than zero"): every velocity,
acceleration, yaw and yaw-rate field is nonzero.  Stated from the spec's
words for comparison with the message the source builds. -/
def specNonzeroSentinels (m : SetPositionTargetLocalNed) : Bool :=
  (m.vx != 0) && (m.vy != 0) && (m.vz != 0)
  && (m.afx != 0) && (m.afy != 0) && (m.afz != 0)
  && (m.yaw != 0) && (m.yaw_rate != 0)

/-! Helper lemmas about the embedding. -/

lemma initCommands_length (mi : MavlinkInterface) : (initCommands mi).length = 11 := rfl

lemma sendAll_ok {α : Type} (writeOk : Nat → Bool) (h : ∀ j, writeOk j = true) :
    ∀ (cs : List α) (i : Nat), sendAll writeOk cs i = (cs, true)
  | [], _ => rfl
  | c :: cs, i => by
    simp [sendAll, h i, sendAll_ok writeOk h cs (i + 1)]

lemma sendAll_fail {α : Type} (writeOk : Nat → Bool) :
    ∀ (cs : List α) (i k : Nat), k < cs.length → writeOk (i + k) = false →
      (∀ j, j < k → writeOk (i + j) = true) →
      sendAll writeOk cs i = (cs.take (k + 1), false)
  | [], _, k, hk, _, _ => by simp at hk
  | c :: cs, i, 0, _, hf, _ => by
    simp only [Nat.add_zero] at hf
    simp [sendAll, hf]
  | c :: cs, i, Nat.succ k, hk, hf, hpre => by
    have h0 : writeOk i = true := by simpa using hpre 0 (Nat.succ_pos k)
    have hf1 : writeOk (i + 1 + k) = false := by
      have e : i + 1 + k = i + (k + 1) := by omega
      rw [e]; exact hf
    have hpre1 : ∀ j, j < k → writeOk (i + 1 + j) = true := by
      intro j hj
      have e : i + 1 + j = i + (j + 1) := by omega
      rw [e]; exact hpre (j + 1) (by omega)
    have hrec := sendAll_fail writeOk cs (i + 1) k
      (by simpa using Nat.lt_of_succ_lt_succ hk) hf1 hpre1
    simp [sendAll, h0, hrec]

lemma foldl_feed_count (feed : ChanState → Nat → ChanState)
    (hfeed : ∀ s b, (feed s b).msg_received = s.msg_received) :
    ∀ (bs : List Nat) (st : ChanState),
      (List.foldl feed st bs).msg_received = st.msg_received
  | [], _ => rfl
  | b :: bs, st => by
    rw [List.foldl_cons, foldl_feed_count feed hfeed bs (feed st b), hfeed]

lemma waitLoop_stuck (feed : ChanState → Nat → ChanState)
    (reads : Nat → Except Nat (List Nat)) (before : Nat)
    (hfeed : ∀ s b, (feed s b).msg_received = s.msg_received)
    (hreads : ∀ i n, reads i ≠ Except.error n) :
    ∀ (fuel : Nat) (st : ChanState) (i : Nat), st.msg_received = before →
      waitLoop feed reads before fuel st i = none
  | 0, st, i, h => by simp [waitLoop, h]
  | Nat.succ f, st, i, h => by
    rw [waitLoop]
    simp only [h, ne_eq, not_true_eq_false, if_false]
    cases hr : reads i with
    | error n => exact absurd hr (hreads i n)
    | ok bytes =>
      exact waitLoop_stuck feed reads before hfeed hreads f
        (List.foldl feed st bytes) (i + 1)
        (by rw [foldl_feed_count feed hfeed]; exact h)

lemma waitLoop_error (feed : ChanState → Nat → ChanState)
    (reads : Nat → Except Nat (List Nat)) (before : Nat) :
    ∀ (fuel : Nat) (st : ChanState) (i : Nat) (e : ErrorCode) (st2 : ChanState),
      waitLoop feed reads before fuel st i = some (TResult.fail e, st2) →
      (∃ n, e = ErrorCode.transport n) ∧ st2.msg_received = before
  | 0, st, i, e, st2, h => by
    by_cases hc : st.msg_received = before
    · simp [waitLoop, hc] at h
    · simp [waitLoop, hc] at h
  | Nat.succ f, st, i, e, st2, h => by
    by_cases hc : st.msg_received = before
    · rw [waitLoop] at h
      simp only [hc, ne_eq, not_true_eq_false, if_false] at h
      cases hr : reads i with
      | error n =>
        rw [hr] at h
        simp only [Option.some.injEq, Prod.mk.injEq, TResult.fail.injEq] at h
        exact ⟨⟨n, h.1.symm⟩, h.2 ▸ hc⟩
      | ok bytes =>
        rw [hr] at h
        exact waitLoop_error feed reads before f (List.foldl feed st bytes) (i + 1) e st2 h
    · simp [waitLoop, hc] at h

lemma heartbeat_loop_stops (mi : MavlinkInterface) (writeOk : Nat → Bool) :
    ∀ (fuel k i : Nat), writeOk (i + k) = false →
      (∀ j, j < k → writeOk (i + j) = true) → k < fuel →
      heartbeat_loop mi writeOk fuel i = some (i + k + 1)
  | 0, k, _, _, _, hk => by omega
  | Nat.succ f, 0, i, hf, _, _ => by
    simp only [Nat.add_zero] at hf
    simp [heartbeat_loop, heartbeat, hf]
  | Nat.succ f, Nat.succ k, i, hf, hpre, hk => by
    have h0 : writeOk i = true := by simpa using hpre 0 (Nat.succ_pos k)
    have hf1 : writeOk (i + 1 + k) = false := by
      have e : i + 1 + k = i + (k + 1) := by omega
      rw [e]; exact hf
    have hpre1 : ∀ j, j < k → writeOk (i + 1 + j) = true := by
      intro j hj
      have e : i + 1 + j = i + (j + 1) := by omega
      rw [e]; exact hpre (j + 1) (by omega)
    have hrec := heartbeat_loop_stops mi writeOk f k (i + 1) hf1 hpre1 (by omega)
    have e2 : i + 1 + k + 1 = i + (k + 1) + 1 := by omega
    rw [e2] at hrec
    simp [heartbeat_loop, heartbeat, h0, hrec]

lemma heartbeat_loop_runs (mi : MavlinkInterface) (writeOk : Nat → Bool)
    (h : ∀ j, writeOk j = true) :
    ∀ (fuel i : Nat), heartbeat_loop mi writeOk fuel i = none
  | 0, _ => rfl
  | Nat.succ f, i => by
    simp [heartbeat_loop, heartbeat, h i, heartbeat_loop_runs mi writeOk h f (i + 1)]

/-! Claim theorems. -/

/-- Claim C1: in every run of `init`, the eleven sends are issued strictly in
the fixed order; if the write at (0-based) position `k` fails and all earlier
writes succeeded, the commands actually sent are exactly the first `k + 1` of
the eleven (later parameter sets and the reboot command are never attempted),
`init` returns `FailedWrite`, and — since the conclusion holds for every
`feed`/`reads`/`fuel`/`chan0`, including `fuel = 0` — the ack-wait is never
entered. -/
theorem init_short_circuit (mi : MavlinkInterface) (env : InitEnv) (k : Nat)
    (hk : k < 11) (hf : env.writeOk k = false)
    (hpre : ∀ j, j < k → env.writeOk j = true) :
    init mi env
      = some (TResult.fail (ErrorCode.mav MavlinkErrc.FailedWrite),
              (initCommands mi).take (k + 1)) := by
  have hs : sendAll env.writeOk (initCommands mi) 0
      = ((initCommands mi).take (k + 1), false) :=
    sendAll_fail env.writeOk (initCommands mi) 0 k
      (by rw [initCommands_length]; exact hk)
      (by simpa using hf) (fun j hj => by simpa using hpre j hj)
  simp [init, initTrace, hs]

/-- Witness for C1: a transport whose eleventh write (the reboot command)
fails, with zero ack-wait fuel, makes `init` return `FailedWrite` after
attempting all eleven sends. -/
theorem init_short_circuit_witness :
    init mkInterface
        ⟨fun i => decide (i < 10), fun s _ => s, fun _ => Except.ok [0], 0, ⟨0, ⟨0⟩⟩⟩
      = some (TResult.fail (ErrorCode.mav MavlinkErrc.FailedWrite),
              (initCommands mkInterface).take 11) :=
  init_short_circuit mkInterface _ 10 (by decide) (by decide) (by decide)

/-- Claim C2 counterexample: the claim as stated — the mask of the built
position-target command marks exactly the three position fields valid, and
every velocity/acceleration/yaw field carries a nonzero sentinel — is false
for the concrete command built at uptime 0 for position (1, 2, 3): the mask
`USE_POSITION = 0x0DFC` has the z-ignore bit set, and the sentinel `INVALID`
is zero. -/
theorem set_target_position_spec_violated :
    ¬ (specPositionOnlyMask (targetMsg 0 1 2 3 true).type_mask = true
       ∧ specNonzeroSentinels (targetMsg 0 1 2 3 true) = true) := by
  decide

/-- Claim C2 (amended): every position-target command built by
`set_target_position_local` carries the mask `USE_POSITION = 0x0DFC`, which
marks the x and y position fields valid but sets the z-ignore bit together
with every velocity, acceleration, yaw and yaw-rate ignore bit; every
velocity, acceleration and yaw field carries the sentinel `INVALID`, which
equals zero. -/
theorem set_target_position_mask_sentinels (uptime : Nat) (x y z : Int) (w : Bool) :
    (targetMsg uptime x y z w).type_mask = 0x0DFC
    ∧ (targetMsg uptime x y z w).coordinate_frame = MAV_FRAME_BODY_OFFSET_NED
    ∧ maskFieldUsed 0x0DFC POSITION_TARGET_TYPEMASK_X_IGNORE = true
    ∧ maskFieldUsed 0x0DFC POSITION_TARGET_TYPEMASK_Y_IGNORE = true
    ∧ maskFieldUsed 0x0DFC POSITION_TARGET_TYPEMASK_Z_IGNORE = false
    ∧ maskFieldUsed 0x0DFC POSITION_TARGET_TYPEMASK_VX_IGNORE = false
    ∧ maskFieldUsed 0x0DFC POSITION_TARGET_TYPEMASK_VY_IGNORE = false
    ∧ maskFieldUsed 0x0DFC POSITION_TARGET_TYPEMASK_VZ_IGNORE = false
    ∧ maskFieldUsed 0x0DFC POSITION_TARGET_TYPEMASK_AX_IGNORE = false
    ∧ maskFieldUsed 0x0DFC POSITION_TARGET_TYPEMASK_AY_IGNORE = false
    ∧ maskFieldUsed 0x0DFC POSITION_TARGET_TYPEMASK_AZ_IGNORE = false
    ∧ maskFieldUsed 0x0DFC POSITION_TARGET_TYPEMASK_YAW_IGNORE = false
    ∧ maskFieldUsed 0x0DFC POSITION_TARGET_TYPEMASK_YAW_RATE_IGNORE = false
    ∧ (targetMsg uptime x y z w).x = x
    ∧ (targetMsg uptime x y z w).y = y
    ∧ (targetMsg uptime x y z w).z = z
    ∧ (targetMsg uptime x y z w).vx = INVALID
    ∧ (targetMsg uptime x y z w).vy = INVALID
    ∧ (targetMsg uptime x y z w).vz = INVALID
    ∧ (targetMsg uptime x y z w).afx = INVALID
    ∧ (targetMsg uptime x y z w).afy = INVALID
    ∧ (targetMsg uptime x y z w).afz = INVALID
    ∧ (targetMsg uptime x y z w).yaw = INVALID
    ∧ (targetMsg uptime x y z w).yaw_rate = INVALID
    ∧ INVALID = 0 :=
  ⟨rfl, rfl, rfl, rfl, rfl, rfl, rfl, rfl, rfl, rfl, rfl, rfl, rfl, rfl, rfl,
   rfl, rfl, rfl, rfl, rfl, rfl, rfl, rfl, rfl, rfl⟩

/-- Claim C3 counterexample: the claim as stated — with a configured deadline
and no frame-completing byte, `wait_for_next_message` returns
`ReceiveTimeout` with the counter unchanged — is false on the code: at the
concrete input where every read yields one byte that completes no frame, the
call has still not returned after 100 reads (the source loop has no deadline
at all), so in particular it has not returned `ReceiveTimeout`. -/
theorem wait_no_deadline_cex :
    wait_for_next_message (fun s _ => s) (fun _ => Except.ok [0]) 100 ⟨0, ⟨0⟩⟩ = none
    ∧ wait_for_next_message (fun s _ => s) (fun _ => Except.ok [0]) 100 ⟨0, ⟨0⟩⟩
        ≠ some (TResult.fail (ErrorCode.mav MavlinkErrc.ReceiveTimeout), ⟨0, ⟨0⟩⟩) := by
  exact ⟨rfl, by decide⟩

/-- Claim C3 (amended): `wait_for_next_message` enforces no deadline: when no
read fails and no fed byte advances the channel's received counter it stays
suspended for every bound on the number of reads (it hangs indefinitely),
and no call ever returns `ReceiveTimeout`. -/
theorem wait_never_times_out (feed : ChanState → Nat → ChanState)
    (reads : Nat → Except Nat (List Nat)) (fuel : Nat) (st : ChanState) :
    ((∀ s b, (feed s b).msg_received = s.msg_received) →
       (∀ i n, reads i ≠ Except.error n) →
       wait_for_next_message feed reads fuel st = none)
    ∧ ∀ st2, wait_for_next_message feed reads fuel st
        ≠ some (TResult.fail (ErrorCode.mav MavlinkErrc.ReceiveTimeout), st2) := by
  constructor
  · intro hfeed hreads
    exact waitLoop_stuck feed reads st.msg_received hfeed hreads fuel st 0 rfl
  · intro st2 h
    rw [wait_for_next_message] at h
    obtain ⟨⟨n, hn⟩, -⟩ := waitLoop_error feed reads st.msg_received fuel st 0 _ _ h
    exact ErrorCode.noConfusion hn

/-- Witness for C3 (amended): with reads that always deliver one
non-completing byte, the call is still suspended after 50 reads. -/
theorem wait_never_times_out_witness :
    wait_for_next_message (fun s _ => s) (fun _ => Except.ok [1]) 50 ⟨0, ⟨0⟩⟩ = none :=
  (wait_never_times_out (fun s _ => s) (fun _ => Except.ok [1]) 50 ⟨0, ⟨0⟩⟩).1
    (fun _ _ => rfl) (fun _ _ h => Except.noConfusion h)

/-- Claim C4: when every write of `init` succeeds and the ack-wait completes
normally with the channel buffer holding a message whose kind is not
COMMAND_ACK, `init` returns `NoCommandAck`. -/
theorem init_wrong_kind_no_ack (mi : MavlinkInterface) (env : InitEnv)
    (hw : ∀ j, env.writeOk j = true) (st : ChanState)
    (hwait : wait_for_next_message env.feed env.reads env.fuel env.chan0
        = some (TResult.ok, st))
    (hmsg : st.lastMsg.msgid ≠ MAVLINK_MSG_ID_COMMAND_ACK) :
    init mi env
      = some (TResult.fail (ErrorCode.mav MavlinkErrc.NoCommandAck), initCommands mi) := by
  have hs := sendAll_ok env.writeOk hw (initCommands mi) 0
  simp [init, initTrace, hs, hwait, hmsg]

/-- Witness for C4: all writes succeed and the next decoded message on the
heartbeat channel has msgid 0 (not COMMAND_ACK), so `init` returns
`NoCommandAck` after sending all eleven commands. -/
theorem init_wrong_kind_no_ack_witness :
    init mkInterface
        ⟨fun _ => true, fun s b => ⟨s.msg_received + 1, ⟨b⟩⟩,
         fun _ => Except.ok [0], 2, ⟨0, ⟨0⟩⟩⟩
      = some (TResult.fail (ErrorCode.mav MavlinkErrc.NoCommandAck),
              initCommands mkInterface) :=
  init_wrong_kind_no_ack mkInterface _ (fun _ => rfl) ⟨1, ⟨0⟩⟩ rfl (by decide)

/-- Claim C5: when every write of `init` succeeds and the ack-wait completes
normally with the channel buffer holding a COMMAND_ACK message, `init`
returns success. -/
theorem init_ack_success (mi : MavlinkInterface) (env : InitEnv)
    (hw : ∀ j, env.writeOk j = true) (st : ChanState)
    (hwait : wait_for_next_message env.feed env.reads env.fuel env.chan0
        = some (TResult.ok, st))
    (hmsg : st.lastMsg.msgid = MAVLINK_MSG_ID_COMMAND_ACK) :
    init mi env = some (TResult.ok, initCommands mi) := by
  have hs := sendAll_ok env.writeOk hw (initCommands mi) 0
  simp [init, initTrace, hs, hwait, hmsg]

/-- Witness for C5: all writes succeed and the next decoded message on the
heartbeat channel has msgid 77 (COMMAND_ACK), so `init` succeeds. -/
theorem init_ack_success_witness :
    init mkInterface
        ⟨fun _ => true, fun s b => ⟨s.msg_received + 1, ⟨b⟩⟩,
         fun _ => Except.ok [77], 2, ⟨0, ⟨0⟩⟩⟩
      = some (TResult.ok, initCommands mkInterface) :=
  init_ack_success mkInterface _ (fun _ => rfl) ⟨1, ⟨77⟩⟩ rfl rfl

/-- Claim C6 counterexample: the claim as stated — a failing transport read
makes `wait_for_next_message` return `FailedRead` — is false at the concrete
input where the first read fails with asio error 5: the call returns the raw
transport error 5, not `FailedRead`. -/
theorem wait_raw_error_cex :
    wait_for_next_message (fun s _ => s) (fun _ => Except.error 5) 3 ⟨0, ⟨0⟩⟩
        = some (TResult.fail (ErrorCode.transport 5), ⟨0, ⟨0⟩⟩)
    ∧ wait_for_next_message (fun s _ => s) (fun _ => Except.error 5) 3 ⟨0, ⟨0⟩⟩
        ≠ some (TResult.fail (ErrorCode.mav MavlinkErrc.FailedRead), ⟨0, ⟨0⟩⟩) := by
  exact ⟨rfl, by decide⟩

/-- Claim C6 (amended): when a transport read fails, `wait_for_next_message`
returns the raw asio error code unchanged — it is never translated to
`FailedRead` (and no timeout kind exists) — and the channel's received
counter is unchanged at the point of return. -/
theorem wait_read_error_raw (feed : ChanState → Nat → ChanState)
    (reads : Nat → Except Nat (List Nat)) (st : ChanState) (n fuel : Nat)
    (h0 : reads 0 = Except.error n) (hfuel : 1 ≤ fuel) :
    wait_for_next_message feed reads fuel st
        = some (TResult.fail (ErrorCode.transport n), st)
    ∧ ∀ e st2, wait_for_next_message feed reads fuel st = some (TResult.fail e, st2) →
        e ≠ ErrorCode.mav MavlinkErrc.FailedRead ∧ st2.msg_received = st.msg_received := by
  obtain ⟨f, rfl⟩ : ∃ f, fuel = f + 1 := ⟨fuel - 1, by omega⟩
  constructor
  · rw [wait_for_next_message, waitLoop]
    simp [h0]
  · intro e st2 h
    rw [wait_for_next_message] at h
    obtain ⟨⟨m, hm⟩, hcnt⟩ := waitLoop_error feed reads st.msg_received (f + 1) st 0 e st2 h
    refine ⟨?_, hcnt⟩
    rw [hm]
    exact fun hc => ErrorCode.noConfusion hc

/-- Witness for C6 (amended): a first read failing with asio error 7 is
returned raw, with the codec state untouched. -/
theorem wait_read_error_raw_witness :
    wait_for_next_message (fun s _ => s) (fun _ => Except.error 7) 2 ⟨3, ⟨9⟩⟩
        = some (TResult.fail (ErrorCode.transport 7), ⟨3, ⟨9⟩⟩) :=
  (wait_read_error_raw (fun s _ => s) (fun _ => Except.error 7) ⟨3, ⟨9⟩⟩ 7 2 rfl
    (by omega)).1

/-- Claim C7: after all eleven writes succeed, a failure of the ack-wait
itself (a transport read error inside `wait_for_next_message`) is discarded:
`init` never returns `FailedRead`, and instead inspects whatever message the
channel buffer holds — returning success when its msgid happens to be
COMMAND_ACK and `NoCommandAck` otherwise, even though that message is stale. -/
theorem init_ignores_wait_failure (mi : MavlinkInterface) (env : InitEnv)
    (hw : ∀ j, env.writeOk j = true) (n : Nat) (st : ChanState)
    (hwait : wait_for_next_message env.feed env.reads env.fuel env.chan0
        = some (TResult.fail (ErrorCode.transport n), st)) :
    init mi env
      = some ((if st.lastMsg.msgid = MAVLINK_MSG_ID_COMMAND_ACK then TResult.ok
               else TResult.fail (ErrorCode.mav MavlinkErrc.NoCommandAck)),
              initCommands mi)
    ∧ ∀ tr, init mi env
        ≠ some (TResult.fail (ErrorCode.mav MavlinkErrc.FailedRead), tr) := by
  have hs := sendAll_ok env.writeOk hw (initCommands mi) 0
  have h1 : init mi env
      = some ((if st.lastMsg.msgid = MAVLINK_MSG_ID_COMMAND_ACK then TResult.ok
               else TResult.fail (ErrorCode.mav MavlinkErrc.NoCommandAck)),
              initCommands mi) := by
    by_cases h : st.lastMsg.msgid = MAVLINK_MSG_ID_COMMAND_ACK
    · simp [init, initTrace, hs, hwait, h]
    · simp [init, initTrace, hs, hwait, h]
  refine ⟨h1, ?_⟩
  intro tr hcontra
  rw [h1] at hcontra
  by_cases h : st.lastMsg.msgid = MAVLINK_MSG_ID_COMMAND_ACK
  · simp [h] at hcontra
  · simp [h] at hcontra

/-- Witness for C7: the ack-wait fails immediately with asio error 5 while
the heartbeat channel buffer still holds a stale COMMAND_ACK (msgid 77);
`init` discards the read failure and reports success. -/
theorem init_ignores_wait_failure_witness :
    init mkInterface
        ⟨fun _ => true, fun s _ => s, fun _ => Except.error 5, 1, ⟨0, ⟨77⟩⟩⟩
      = some (TResult.ok, initCommands mkInterface) := by
  have h := (init_ignores_wait_failure mkInterface
      ⟨fun _ => true, fun s _ => s, fun _ => Except.error 5, 1, ⟨0, ⟨77⟩⟩⟩
      (fun _ => rfl) 5 ⟨0, ⟨77⟩⟩ rfl).1
  simpa [MAVLINK_MSG_ID_COMMAND_ACK] using h

/-- Claim C8: in every execution of `heartbeat_loop`, if the k-th heartbeat
send is the first to fail then the loop terminates after exactly `k + 1`
sends and never issues another one; while every send succeeds the loop is
still running after any number of iterations (it repeats unboundedly, with
no retry or backoff). -/
theorem heartbeat_loop_spec (mi : MavlinkInterface) (writeOk : Nat → Bool)
    (fuel : Nat) :
    (∀ k, writeOk k = false → (∀ j, j < k → writeOk j = true) → k < fuel →
        heartbeat_loop mi writeOk fuel 0 = some (k + 1))
    ∧ ((∀ j, writeOk j = true) → heartbeat_loop mi writeOk fuel 0 = none) := by
  constructor
  · intro k hf hpre hk
    have h := heartbeat_loop_stops mi writeOk fuel k 0 (by simpa using hf)
      (fun j hj => by simpa using hpre j hj) hk
    simpa using h
  · intro h
    exact heartbeat_loop_runs mi writeOk h fuel 0

/-- Witness for C8: with the third send (index 2) the first to fail the loop
stops after exactly 3 sends; with all sends succeeding it is still running
after 5 iterations. -/
theorem heartbeat_loop_spec_witness :
    heartbeat_loop mkInterface (fun i => decide (i < 2)) 9 0 = some 3
    ∧ heartbeat_loop mkInterface (fun _ => true) 5 0 = none :=
  ⟨(heartbeat_loop_spec mkInterface (fun i => decide (i < 2)) 9).1 2 (by decide)
      (by decide) (by decide),
   (heartbeat_loop_spec mkInterface (fun _ => true) 5).2 (fun _ => rfl)⟩

/-- Claim C9: `heartbeat` against a failing transport returns `FailedWrite`,
and the interface carries no persisted failure state: the call leaves every
member unchanged, so a subsequent call behaves exactly as a fresh one and
depends only on its own transport outcome. -/
theorem heartbeat_fail_stateless (mi : MavlinkInterface) (w : Bool) :
    (heartbeat mi false).1 = TResult.fail (ErrorCode.mav MavlinkErrc.FailedWrite)
    ∧ (heartbeat mi false).2.2 = mi
    ∧ heartbeat (heartbeat mi false).2.2 w = heartbeat mi w :=
  ⟨rfl, rfl, rfl⟩

/-- Claim C10: in any run of `init` in which every write succeeds, the
commands sent are exactly the ten parameter-set commands — each pinning its
stream's rate parameter to value 0 with type MAV_PARAM_TYPE_INT16, for the
identifiers SR0_RAW_SENS, SR0_EXT_STAT, SR0_RC_CHAN, SR0_RAW_CTRL,
SR0_POSITION, SR0_EXTRA1, SR0_EXTRA2, SR0_EXTRA3, SR0_PARAMS, SR0_ADSB in
that order — followed by the reboot command. -/
theorem init_param_commands (env : InitEnv) (hw : ∀ j, env.writeOk j = true) :
    initTrace mkInterface env
      = [MavCommand.paramSet
           { senderSys := 1, senderComp := 5, chan := 0, targetSys := 1,
             targetComp := 1, param_id := "SR0_RAW_SENS", param_value := 0,
             param_type := MAV_PARAM_TYPE_INT16 },
         MavCommand.paramSet
           { senderSys := 1, senderComp := 5, chan := 0, targetSys := 1,
             targetComp := 1, param_id := "SR0_EXT_STAT", param_value := 0,
             param_type := MAV_PARAM_TYPE_INT16 },
         MavCommand.paramSet
           { senderSys := 1, senderComp := 5, chan := 0, targetSys := 1,
             targetComp := 1, param_id := "SR0_RC_CHAN", param_value := 0,
             param_type := MAV_PARAM_TYPE_INT16 },
         MavCommand.paramSet
           { senderSys := 1, senderComp := 5, chan := 0, targetSys := 1,
             targetComp := 1, param_id := "SR0_RAW_CTRL", param_value := 0,
             param_type := MAV_PARAM_TYPE_INT16 },
         MavCommand.paramSet
           { senderSys := 1, senderComp := 5, chan := 0, targetSys := 1,
             targetComp := 1, param_id := "SR0_POSITION", param_value := 0,
             param_type := MAV_PARAM_TYPE_INT16 },
         MavCommand.paramSet
           { senderSys := 1, senderComp := 5, chan := 0, targetSys := 1,
             targetComp := 1, param_id := "SR0_EXTRA1", param_value := 0,
             param_type := MAV_PARAM_TYPE_INT16 },
         MavCommand.paramSet
           { senderSys := 1, senderComp := 5, chan := 0, targetSys := 1,
             targetComp := 1, param_id := "SR0_EXTRA2", param_value := 0,
             param_type := MAV_PARAM_TYPE_INT16 },
         MavCommand.paramSet
           { senderSys := 1, senderComp := 5, chan := 0, targetSys := 1,
             targetComp := 1, param_id := "SR0_EXTRA3", param_value := 0,
             param_type := MAV_PARAM_TYPE_INT16 },
         MavCommand.paramSet
           { senderSys := 1, senderComp := 5, chan := 0, targetSys := 1,
             targetComp := 1, param_id := "SR0_PARAMS", param_value := 0,
             param_type := MAV_PARAM_TYPE_INT16 },
         MavCommand.paramSet
           { senderSys := 1, senderComp := 5, chan := 0, targetSys := 1,
             targetComp := 1, param_id := "SR0_ADSB", param_value := 0,
             param_type := MAV_PARAM_TYPE_INT16 },
         MavCommand.commandInt
           { senderSys := 1, senderComp := 5, chan := 0, targetSys := 1,
             targetComp := 1, frame := MAV_FRAME_LOCAL_NED, command := 246,
             current := 0, autocontinue := 0, param1 := 1, param2 := 0,
             param3 := 0, param4 := 0, x := 0, y := 0, z := 0 }] := by
  have hs := sendAll_ok env.writeOk hw (initCommands mkInterface) 0
  show (sendAll env.writeOk (initCommands mkInterface) 0).1 = _
  rw [hs]
  rfl

/-- Witness for C10: with an always-succeeding transport the send trace of
`init` is exactly the eleven fixed commands. -/
theorem init_param_commands_witness :
    initTrace mkInterface ⟨fun _ => true, fun s _ => s, fun _ => Except.ok [], 0, ⟨0, ⟨0⟩⟩⟩
      = initCommands mkInterface := by
  have h := init_param_commands
    ⟨fun _ => true, fun s _ => s, fun _ => Except.ok [], 0, ⟨0, ⟨0⟩⟩⟩ (fun _ => rfl)
  exact h.trans rfl

end Ardupilot
